import Mathlib

/-!
Verification of the GoldenBook authorization subsystem (the "Permission Ledger").

The repository contains several historical variants of the Authorizing concept:
* `src/unnamed/part_001` — a store-backed `AuthorizingConcept` whose `denied_actions`
  collection holds `AuthorizationDoc`s with fields `user` and `denied_action`, and whose
  `user_control_map` collection holds `UserControlMap` docs with fields `authorizer` and
  `authorizee`.  Embedded below as `AuthorizingStore`.
* `src/server/concepts/recording.ts` (third unit) — an `AuthorizingConcept` whose
  delegation graph is an in-process `Map<ObjectId, Set<ObjectId>>`.  Embedded below as
  `AuthorizingMap`.
* `src/server/concepts/authorizing.ts` (first unit) — a minimal variant with a `denied`
  collection (fields `user`, `denied`).  Embedded below as `AuthorizingV1`.
* `src/server/concepts/authorizing.ts` (second unit) — supplies `assertIsValidAction`
  over the closed action set.  Embedded below as `validActions` / `assertIsValidAction`.
* `src/server/routes.ts` (first unit) — the route handlers `denyMessaging`,
  `denyPosting`, `revokeControl`; embedded below in namespace `Routes`, composed with
  the store-backed concept.

Mongo ObjectIds are modelled as `Nat`; documents as association lists of named fields.
-/

namespace GoldenBook

/-- Field values stored in documents: Mongo ObjectIds (modelled as `Nat`) and strings. -/
inductive Value where
  | oid (n : Nat)
  | str (s : String)
deriving DecidableEq, Repr

/-- A stored document: a finite list of named fields. -/
abbrev Doc := List (String × Value)

/-- Modelled from the spec: the Document Store collaborator (`src/framework/doc` is not
under `src/`; spec section 2 describes it as a generic collection supporting insert,
point/filter read and delete-by-filter).  A filter matches a document when every filter
field is present in the document with the given value. -/
def matchesFilter (filter : Doc) (d : Doc) : Bool :=
  filter.all (fun p => List.lookup p.1 d == some p.2)

/-- Modelled from the spec: `readOne` returns the first stored document matching the
filter. -/
def readOne (coll : List Doc) (filter : Doc) : Option Doc :=
  coll.find? (matchesFilter filter)

/-- Modelled from the spec: `readMany` returns all documents matching the filter. -/
def readMany (coll : List Doc) (filter : Doc) : List Doc :=
  coll.filter (matchesFilter filter)

/-- Modelled from the spec: `deleteMany` removes every document matching the filter. -/
def deleteMany (coll : List Doc) (filter : Doc) : List Doc :=
  coll.filter (fun d => ! matchesFilter filter d)

/-- Modelled from the spec: `deleteOne` removes the first document matching the filter. -/
def deleteOne : List Doc → Doc → List Doc
  | [], _ => []
  | d :: rest, filter => if matchesFilter filter d then rest else d :: deleteOne rest filter

/-- Errors thrown by the Authorizing concept variants, one constructor per error class in
the source (`AlreadyAllowedError`, `AlreadyDeniedError`, `AuthorizerAlreadyExistsError`,
`AuthorizerNotFoundError`, `AuthorizerPermissionError` from `src/unnamed/part_001`;
`AuthorizerError`, `InvalidActionError` from `src/server/concepts/authorizing.ts` and the
Authorizing unit of `recording.ts`; `NotFoundError` is the generic framework error). -/
inductive AuthError where
  | AlreadyAllowedError (user : Nat) (action : String)
  | AlreadyDeniedError (user : Nat) (action : String)
  | AuthorizerAlreadyExistsError (authorizer : Nat) (authorizee : Nat)
  | AuthorizerNotFoundError (authorizer : Nat) (authorizee : Nat)
  | AuthorizerPermissionError (authorizer : Nat) (authorizee : Nat)
  | AuthorizerError (authorizer : Nat) (authorizee : Nat)
  | UnauthorizedActionError (user : Nat) (action : String)
  | InvalidActionError (msg : String)
  | NotFoundError (msg : String)
deriving DecidableEq, Repr

namespace AuthorizingStore

/-- State of the store-backed `AuthorizingConcept` of `src/unnamed/part_001`: the
`denied_actions` collection (docs with fields `user`, `denied_action`, see
`AuthorizationDoc`) and the `user_control_map` collection (docs with fields `authorizer`,
`authorizee`, see `UserControlMap`).  `nextId` supplies fresh `_id`s for `createOne`. -/
structure State where
  denied_actions : List Doc
  user_control_map : List Doc
  nextId : Nat
deriving DecidableEq, Repr

/-- The empty concept state: both collections empty. -/
def emptyState : State := { denied_actions := [], user_control_map := [], nextId := 0 }

/-- part_001 lines 31-38: `allow` reads one doc with filter `{ user, action }` (note: the
filter field is `action`, while `AuthorizationDoc` stores the action under
`denied_action`), throws `AlreadyAllowedError` when none is found, and otherwise deletes
all docs matching the same filter. -/
def allow (s : State) (user : Nat) (action : String) : Except AuthError State :=
  match readOne s.denied_actions [("user", Value.oid user), ("action", Value.str action)] with
  | none => Except.error (AuthError.AlreadyAllowedError user action)
  | some _ =>
      let coll := deleteMany s.denied_actions
        [("user", Value.oid user), ("action", Value.str action)]
      Except.ok { s with denied_actions := coll }

/-- part_001 lines 40-47: `deny` reads one doc with filter `{ user, action }`, throws
`AlreadyDeniedError` when one is found, and otherwise creates a doc
`{ user, denied_action: action }`. -/
def deny (s : State) (user : Nat) (action : String) : Except AuthError State :=
  match readOne s.denied_actions [("user", Value.oid user), ("action", Value.str action)] with
  | some _ => Except.error (AuthError.AlreadyDeniedError user action)
  | none =>
      let doc : Doc := [("_id", Value.oid s.nextId), ("user", Value.oid user),
        ("denied_action", Value.str action)]
      Except.ok { s with denied_actions := s.denied_actions ++ [doc], nextId := s.nextId + 1 }

/-- part_001 lines 49-56: `addAuthorizer` reads one doc with filter
`{ authorizer, authorizee }`, throws `AuthorizerAlreadyExistsError` when present, and
otherwise creates a doc `{ authorizer, authorizee }`. -/
def addAuthorizer (s : State) (authorizer : Nat) (authorizee : Nat) : Except AuthError State :=
  match readOne s.user_control_map
      [("authorizer", Value.oid authorizer), ("authorizee", Value.oid authorizee)] with
  | some _ => Except.error (AuthError.AuthorizerAlreadyExistsError authorizer authorizee)
  | none =>
      let doc : Doc := [("_id", Value.oid s.nextId), ("authorizer", Value.oid authorizer),
        ("authorizee", Value.oid authorizee)]
      Except.ok { s with user_control_map := s.user_control_map ++ [doc],
                         nextId := s.nextId + 1 }

/-- part_001 lines 58-65: `removeAuthorizer` reads one doc with filter
`{ authorizer, authorizee }`, throws `AuthorizerNotFoundError` when absent, and otherwise
deletes one matching doc. -/
def removeAuthorizer (s : State) (authorizer : Nat) (authorizee : Nat) :
    Except AuthError State :=
  match readOne s.user_control_map
      [("authorizer", Value.oid authorizer), ("authorizee", Value.oid authorizee)] with
  | none => Except.error (AuthError.AuthorizerNotFoundError authorizer authorizee)
  | some _ =>
      let coll := deleteOne s.user_control_map
        [("authorizer", Value.oid authorizer), ("authorizee", Value.oid authorizee)]
      Except.ok { s with user_control_map := coll }

/-- part_001 lines 67-69: `getDeniedActionByUser` returns all denial docs whose `user`
field is the given user. -/
def getDeniedActionByUser (s : State) (user : Nat) : List Doc :=
  readMany s.denied_actions [("user", Value.oid user)]

/-- part_001 lines 71-74: `getAuthorizeesByAuthorizer` returns all control docs whose
`authorizer` field is the given user. -/
def getAuthorizeesByAuthorizer (s : State) (authorizer : Nat) : List Doc :=
  readMany s.user_control_map [("authorizer", Value.oid authorizer)]

/-- part_001 lines 76-79: `getAuthorizersByAuthorizee` returns all control docs whose
`authorizee` field is the given user. -/
def getAuthorizersByAuthorizee (s : State) (authorizee : Nat) : List Doc :=
  readMany s.user_control_map [("authorizee", Value.oid authorizee)]

/-- part_001 lines 81-86: `assertIsAuthorizer` reads one doc with filter
`{ authorizer, authorizee }` and throws `AuthorizerPermissionError` when absent. -/
def assertIsAuthorizer (s : State) (authorizer : Nat) (authorizee : Nat) :
    Except AuthError Unit :=
  match readOne s.user_control_map
      [("authorizer", Value.oid authorizer), ("authorizee", Value.oid authorizee)] with
  | none => Except.error (AuthError.AuthorizerPermissionError authorizer authorizee)
  | some _ => Except.ok ()

/-- part_001 lines 88-93: `assertActionIsAllowed` reads one doc with filter
`{ user, action }` (again the filter field is `action`, not `denied_action`) and throws
`UnauthorizedActionError` when one is found. -/
def assertActionIsAllowed (s : State) (user : Nat) (action : String) :
    Except AuthError Unit :=
  match readOne s.denied_actions [("user", Value.oid user), ("action", Value.str action)] with
  | some _ => Except.error (AuthError.UnauthorizedActionError user action)
  | none => Except.ok ()

/-- The state after `deny` when it succeeds; the unchanged state when it throws (the
source throws before performing any write). -/
def afterDeny (s : State) (user : Nat) (action : String) : State :=
  match deny s user action with
  | Except.ok s2 => s2
  | Except.error _ => s

/-- The state after `allow` when it succeeds; the unchanged state when it throws. -/
def afterAllow (s : State) (user : Nat) (action : String) : State :=
  match allow s user action with
  | Except.ok s2 => s2
  | Except.error _ => s

/-- The `(user, denied_action)` field pair of a denial document. -/
def docPair (d : Doc) : Option Value × Option Value :=
  (List.lookup "user" d, List.lookup "denied_action" d)

/-- Well-formedness of the denial collection: every stored denial document was created by
`deny`, hence carries its action under the `denied_action` field and has no `action`
field.  Every state reachable from `emptyState` through the concept operations satisfies
this. -/
def wfDenied (s : State) : Prop :=
  ∀ d ∈ s.denied_actions, List.lookup "action" d = none

instance (s : State) : Decidable (wfDenied s) := by
  unfold wfDenied; infer_instance

end AuthorizingStore

namespace AuthorizingMap

/-- The in-process delegation graph of the `AuthorizingConcept` in the third unit of
`src/server/concepts/recording.ts` (lines 203-284): a `Map<ObjectId, Set<ObjectId>>` from
an authorizer to the set of authorizees, modelled as an association list of
(authorizer, authorizee list) pairs where each list holds distinct members (a `Set`). -/
abbrev ControlMap := List (Nat × List Nat)

/-- JS `Set.add`: appends the element unless already present. -/
def setAdd (set : List Nat) (x : Nat) : List Nat :=
  if x ∈ set then set else set ++ [x]

/-- recording.ts lines 225-233: `addAuthorizer` creates a fresh singleton set when the
authorizer has no entry, and otherwise adds the authorizee to the existing set.  It never
throws. -/
def addAuthorizer (m : ControlMap) (authorizer : Nat) (authorizee : Nat) : ControlMap :=
  match List.lookup authorizer m with
  | none => m ++ [(authorizer, [authorizee])]
  | some _ => m.map (fun p => if p.1 = authorizer then (p.1, setAdd p.2 authorizee) else p)

/-- recording.ts lines 235-243: `removeAuthorizer` throws `AuthorizerNotFoundError` when
the authorizer has no entry or the entry does not contain the authorizee, and otherwise
deletes the authorizee from the set. -/
def removeAuthorizer (m : ControlMap) (authorizer : Nat) (authorizee : Nat) :
    Except AuthError ControlMap :=
  match List.lookup authorizer m with
  | none => Except.error (AuthError.AuthorizerNotFoundError authorizer authorizee)
  | some userMap =>
      if authorizee ∈ userMap then
        Except.ok (m.map (fun p =>
          if p.1 = authorizer then (p.1, p.2.filter (fun x => x ≠ authorizee)) else p))
      else Except.error (AuthError.AuthorizerNotFoundError authorizer authorizee)

/-- recording.ts lines 249-256: `getAuthorizeesByAuthorizer` throws
`NotFoundError("No authorizees found!")` when the authorizer has no entry or the entry is
empty, and otherwise returns the set as an array. -/
def getAuthorizeesByAuthorizer (m : ControlMap) (authorizer : Nat) :
    Except AuthError (List Nat) :=
  match List.lookup authorizer m with
  | none => Except.error (AuthError.NotFoundError "No authorizees found!")
  | some userMap =>
      if userMap.length = 0 then Except.error (AuthError.NotFoundError "No authorizees found!")
      else Except.ok userMap

/-- recording.ts lines 258-268: `getAuthorizersByAuthorizee` filters the map keys down to
those whose set contains the authorizee and throws
`NotFoundError("No authorizers found!")` when that list is empty. -/
def getAuthorizersByAuthorizee (m : ControlMap) (authorizee : Nat) :
    Except AuthError (List Nat) :=
  let authorizers := (m.map Prod.fst).filter (fun a =>
    match List.lookup a m with
    | some userMap => authorizee ∈ userMap
    | none => false)
  if authorizers.length = 0 then Except.error (AuthError.NotFoundError "No authorizers found!")
  else Except.ok authorizers

/-- recording.ts lines 270-276: `assertIsAuthorizer` throws `AuthorizerError` when the
map has no entry for the authorizer, or when the entry does not contain the AUTHORIZER
itself — the source condition is `!userMap.has(authorizer)`, written with `authorizer`
where the authorizee would be expected. -/
def assertIsAuthorizer (m : ControlMap) (authorizer : Nat) (authorizee : Nat) :
    Except AuthError Unit :=
  match List.lookup authorizer m with
  | none => Except.error (AuthError.AuthorizerError authorizer authorizee)
  | some userMap =>
      if authorizer ∈ userMap then Except.ok ()
      else Except.error (AuthError.AuthorizerError authorizer authorizee)

/-- The delegation edge relation the map represents: `(x, y)` is an edge when `y` is in
`x`'s authorizee set. -/
def hasEdge (m : ControlMap) (x : Nat) (y : Nat) : Bool :=
  match List.lookup x m with
  | some userMap => y ∈ userMap
  | none => false

end AuthorizingMap

namespace AuthorizingV1

/-- State of the minimal `AuthorizingConcept` in the first unit of
`src/server/concepts/authorizing.ts` (lines 14-44): one `denied` collection of docs with
fields `user` and `denied`. -/
structure State where
  denied : List Doc
  nextId : Nat
deriving DecidableEq, Repr

/-- authorizing.ts lines 24-27: `allow` deletes every doc matching `{ user, denied: action }`
with no existence check; it never throws. -/
def allow (s : State) (user : Nat) (action : String) : State :=
  let coll := deleteMany s.denied [("user", Value.oid user), ("denied", Value.str action)]
  { s with denied := coll }

/-- authorizing.ts lines 29-32: `deny` creates a doc `{ user, denied: action }` with no
duplicate check; it never throws. -/
def deny (s : State) (user : Nat) (action : String) : State :=
  let doc : Doc := [("_id", Value.oid s.nextId), ("user", Value.oid user),
    ("denied", Value.str action)]
  { s with denied := s.denied ++ [doc], nextId := s.nextId + 1 }

/-- authorizing.ts lines 34-36: `getDeniedActionByUser` returns all docs for the user. -/
def getDeniedActionByUser (s : State) (user : Nat) : List Doc :=
  readMany s.denied [("user", Value.oid user)]

end AuthorizingV1

/-- authorizing.ts (second unit) line 134: the closed set of recognized actions. -/
def validActions : List String := ["Message", "Friend", "Nudge", "Record", "Post"]

/-- authorizing.ts (second unit) lines 133-139: `assertIsValidAction` throws
`InvalidActionError("Invalid action!")` when the action is not in `validActions`.  No
operation of any Authorizing variant calls it: in particular `deny` performs no
validation. -/
def assertIsValidAction (action : String) : Except AuthError Unit :=
  if validActions.contains action then Except.ok ()
  else Except.error (AuthError.InvalidActionError "Invalid action!")

namespace Routes

/-- routes.ts lines 450-456 (`POST /authorize/deny/message`): the handler resolves the
target `authorizee` and the session `authorizer`, calls
`Authorizing.assertIsAuthorizer(authorizer, authorizee)` WITHOUT `await` — so a rejection
of that promise cannot abort the handler and its result is discarded — and then returns
`await Authorizing.deny(authorizer, "Message")`: it denies the AUTHORIZER, not the
authorizee.  Composed with the store-backed concept. -/
def denyMessaging (s : AuthorizingStore.State) (authorizer : Nat) (authorizee : Nat) :
    Except AuthError AuthorizingStore.State :=
  let _guard := AuthorizingStore.assertIsAuthorizer s authorizer authorizee
  AuthorizingStore.deny s authorizer "Message"

/-- routes.ts lines 479-485 (`POST /authorize/deny/post`): same shape as `denyMessaging`
— the guard is not awaited, and the final call is `Authorizing.deny(authorizer, "Message")`:
it denies the authorizer, with action `"Message"` rather than `"Post"`. -/
def denyPosting (s : AuthorizingStore.State) (authorizer : Nat) (authorizee : Nat) :
    Except AuthError AuthorizingStore.State :=
  let _guard := AuthorizingStore.assertIsAuthorizer s authorizer authorizee
  AuthorizingStore.deny s authorizer "Message"

/-- routes.ts lines 591-597 (`DELETE /authorize/control`): the handler calls
`Authorizing.assertIsAuthorizer(authorizer, authorizee)` without `await`, then returns
`await Authorizing.removeAuthorizer(authorizer, authorizee)`. -/
def revokeControl (s : AuthorizingStore.State) (authorizer : Nat) (authorizee : Nat) :
    Except AuthError AuthorizingStore.State :=
  let _guard := AuthorizingStore.assertIsAuthorizer s authorizer authorizee
  AuthorizingStore.removeAuthorizer s authorizer authorizee

end Routes

/-! Concrete states used to evaluate the operations. -/

/-- The denial document `deny` creates for user 0 and action `"Message"` on the empty
state: note the action is stored under the `denied_action` field. -/
def msgDoc : Doc := [("_id", Value.oid 0), ("user", Value.oid 0),
  ("denied_action", Value.str "Message")]

/-- The state after `deny emptyState 0 "Message"`. -/
def sMsg : AuthorizingStore.State :=
  { denied_actions := [msgDoc], user_control_map := [], nextId := 1 }

/-- The second denial document created by a repeated `deny 0 "Message"`. -/
def msgDoc2 : Doc := [("_id", Value.oid 1), ("user", Value.oid 0),
  ("denied_action", Value.str "Message")]

/-- The state after denying `(0, "Message")` twice from the empty state. -/
def sMsg2 : AuthorizingStore.State :=
  { denied_actions := [msgDoc, msgDoc2], user_control_map := [], nextId := 2 }

/-- The state after `deny emptyState 0 "Dance"`. -/
def sDance : AuthorizingStore.State :=
  { denied_actions := [[("_id", Value.oid 0), ("user", Value.oid 0),
      ("denied_action", Value.str "Dance")]], user_control_map := [], nextId := 1 }

/-! Claim theorems. -/

/-- Claim C1: the claim states that a failure of `assertIsAuthorizer` aborts the guarded
route handler before any mutation.  On the empty state there is no delegation edge
(0, 1), so the guard fails — yet `denyMessaging` (which does not await the guard)
completes and inserts a denial record. -/
theorem denyMessaging_mutates_despite_failed_guard :
    AuthorizingStore.assertIsAuthorizer AuthorizingStore.emptyState 0 1 =
      Except.error (AuthError.AuthorizerPermissionError 0 1) ∧
    Routes.denyMessaging AuthorizingStore.emptyState 0 1 = Except.ok sMsg ∧
    sMsg.denied_actions ≠ [] := by
  refine ⟨rfl, rfl, ?_⟩
  decide

/-- Claim C2: the claim states that immediately after a successful `deny(U, A)`,
`assertActionIsAllowed(U, A)` raises and `getDeniedActionsByUser(U)` contains A.  After
`deny(0, "Message")` succeeds, the denial is listed by `getDeniedActionByUser`, but
`assertActionIsAllowed(0, "Message")` returns successfully instead of raising: it filters
on a field named `action` while the record stores the action under `denied_action`. -/
theorem deny_then_assertActionIsAllowed_does_not_raise :
    AuthorizingStore.deny AuthorizingStore.emptyState 0 "Message" = Except.ok sMsg ∧
    AuthorizingStore.assertActionIsAllowed sMsg 0 "Message" = Except.ok () ∧
    AuthorizingStore.getDeniedActionByUser sMsg 0 = [msgDoc] := by
  refine ⟨rfl, rfl, ?_⟩
  decide

/-- Claim C3: the claim states that after alice (user 0) denies `Post` for bob (user 1)
through the deny-posting route, the denial is recorded against bob for `"Post"` and none
against alice.  The handler instead calls `deny(authorizer, "Message")`: the denial lands
on alice with action `"Message"`, bob's denial list stays empty, and bob remains allowed
to post. -/
theorem denyPosting_records_denial_against_authorizer :
    Routes.denyPosting AuthorizingStore.emptyState 0 1 = Except.ok sMsg ∧
    AuthorizingStore.getDeniedActionByUser sMsg 1 = [] ∧
    AuthorizingStore.getDeniedActionByUser sMsg 0 = [msgDoc] ∧
    AuthorizingStore.docPair msgDoc = (some (Value.oid 0), some (Value.str "Message")) ∧
    AuthorizingStore.assertActionIsAllowed sMsg 1 "Post" = Except.ok () := by
  refine ⟨rfl, ?_, ?_, rfl, rfl⟩ <;> decide

/-- Claim C4: the claim states that a second `deny(U, A)` either fails with
`AlreadyDenied` or leaves exactly one denial record.  Denying `(0, "Message")` twice from
the empty state succeeds both times and leaves TWO records for the pair: the duplicate
check filters on the nonexistent `action` field, so it never finds the first record. -/
theorem deny_twice_leaves_two_denial_records :
    AuthorizingStore.deny AuthorizingStore.emptyState 0 "Message" = Except.ok sMsg ∧
    AuthorizingStore.deny sMsg 0 "Message" = Except.ok sMsg2 ∧
    sMsg2.denied_actions.countP
      (matchesFilter [("user", Value.oid 0), ("denied_action", Value.str "Message")]) = 2 := by
  refine ⟨rfl, rfl, ?_⟩
  decide

/-- Claim C5: the claim states that `allow(U, A)` after `deny(U, A)` succeeds and removes
the denial.  After `deny(0, "Message")`, `allow(0, "Message")` instead raises
`AlreadyAllowedError` — its lookup filters on the nonexistent `action` field, so it never
sees the existing denial — and the denial record remains. -/
theorem allow_after_deny_raises_AlreadyAllowed :
    AuthorizingStore.deny AuthorizingStore.emptyState 0 "Message" = Except.ok sMsg ∧
    AuthorizingStore.allow sMsg 0 "Message" =
      Except.error (AuthError.AlreadyAllowedError 0 "Message") ∧
    AuthorizingStore.getDeniedActionByUser sMsg 0 = [msgDoc] := by
  refine ⟨rfl, rfl, ?_⟩
  decide

/-- Claim C6: the claim states that after `addAuthorizer(X, Y)`, `assertIsAuthorizer(X, Y)`
succeeds.  In the Map-backed variant, `addAuthorizer(0, 1)` records the edge (0, 1), yet
`assertIsAuthorizer(0, 1)` raises `AuthorizerError`: its condition tests
`userMap.has(authorizer)` — whether the authorizer's set contains the authorizer itself —
instead of `userMap.has(authorizee)`. -/
theorem assertIsAuthorizer_fails_after_addAuthorizer :
    AuthorizingMap.addAuthorizer [] 0 1 = [(0, [1])] ∧
    AuthorizingMap.hasEdge [(0, [1])] 0 1 = true ∧
    AuthorizingMap.assertIsAuthorizer [(0, [1])] 0 1 =
      Except.error (AuthError.AuthorizerError 0 1) := by
  refine ⟨rfl, ?_, rfl⟩
  decide

/-- Claim C7: the claim states that `assertIsAuthorizer(X, Y)` raises whenever no edge
(X, Y) exists, regardless of other edges such as a self-edge (X, X).  In the Map-backed
variant, after `addAuthorizer(0, 0)` creates the self-edge, `assertIsAuthorizer(0, 1)`
SUCCEEDS although no edge (0, 1) exists: the self-edge satisfies its
`userMap.has(authorizer)` test. -/
theorem assertIsAuthorizer_accepts_missing_edge_given_self_edge :
    AuthorizingMap.addAuthorizer [] 0 0 = [(0, [0])] ∧
    AuthorizingMap.hasEdge [(0, [0])] 0 1 = false ∧
    AuthorizingMap.assertIsAuthorizer [(0, [0])] 0 1 = Except.ok () := by
  refine ⟨rfl, ?_, rfl⟩
  decide

/-- Claim C8: the claim states that `deny` rejects an unrecognized action such as
`"Dance"` with `InvalidAction` before writing any record.  `assertIsValidAction("Dance")`
does raise `InvalidActionError`, but no `deny` variant ever calls it:
`deny(0, "Dance")` on the empty state succeeds and inserts a denial record for
`"Dance"`. -/
theorem deny_accepts_unrecognized_action :
    validActions.contains "Dance" = false ∧
    assertIsValidAction "Dance" = Except.error (AuthError.InvalidActionError "Invalid action!") ∧
    AuthorizingStore.deny AuthorizingStore.emptyState 0 "Dance" = Except.ok sDance ∧
    sDance.denied_actions ≠ [] := by
  refine ⟨?_, rfl, rfl, ?_⟩ <;> decide

/-- Claim C9, counterexample: the claim states that for a user with no delegation edges
both delegation getters return empty collections and do not raise.  In the Map-backed
variant both getters raise `NotFoundError` on the empty graph. -/
theorem map_getters_raise_on_empty_graph :
    AuthorizingMap.getAuthorizeesByAuthorizer [] 0 =
      Except.error (AuthError.NotFoundError "No authorizees found!") ∧
    AuthorizingMap.getAuthorizersByAuthorizee [] 0 =
      Except.error (AuthError.NotFoundError "No authorizers found!") :=
  ⟨rfl, rfl⟩

/-- Claim C9, amended: for a user with no delegation edges, the store-backed getters
(`src/unnamed/part_001`) return empty collections without raising, while the Map-backed
getters (`recording.ts`) raise `NotFoundError`. -/
theorem getters_on_user_without_edges
    (s : AuthorizingStore.State) (m : AuthorizingMap.ControlMap) (u : Nat)
    (hs : ∀ d ∈ s.user_control_map,
      List.lookup "authorizer" d ≠ some (Value.oid u) ∧
      List.lookup "authorizee" d ≠ some (Value.oid u))
    (hm1 : List.lookup u m = none)
    (hm2 : ∀ a um, List.lookup a m = some um → u ∉ um) :
    AuthorizingStore.getAuthorizeesByAuthorizer s u = [] ∧
    AuthorizingStore.getAuthorizersByAuthorizee s u = [] ∧
    AuthorizingMap.getAuthorizeesByAuthorizer m u =
      Except.error (AuthError.NotFoundError "No authorizees found!") ∧
    AuthorizingMap.getAuthorizersByAuthorizee m u =
      Except.error (AuthError.NotFoundError "No authorizers found!") := by
  refine ⟨?_, ?_, ?_, ?_⟩
  · unfold AuthorizingStore.getAuthorizeesByAuthorizer readMany
    refine List.filter_eq_nil_iff.mpr (fun d hd => ?_)
    simp [matchesFilter]
    exact (hs d hd).1
  · unfold AuthorizingStore.getAuthorizersByAuthorizee readMany
    refine List.filter_eq_nil_iff.mpr (fun d hd => ?_)
    simp [matchesFilter]
    exact (hs d hd).2
  · unfold AuthorizingMap.getAuthorizeesByAuthorizer
    rw [hm1]
  · unfold AuthorizingMap.getAuthorizersByAuthorizee
    have hfil : (m.map Prod.fst).filter (fun a =>
        match List.lookup a m with
        | some userMap => decide (u ∈ userMap)
        | none => false) = [] := by
      refine List.filter_eq_nil_iff.mpr (fun a _ => ?_)
      cases hla : List.lookup a m with
      | none => simp
      | some userMap => simpa using hm2 a userMap hla
    simp only [hfil]
    rfl

/-- Witness for `getters_on_user_without_edges`: user 0 has no edges in a store holding
only the edge (5, 6) and in the map holding only that same edge. -/
theorem getters_on_user_without_edges_witness :
    AuthorizingStore.getAuthorizeesByAuthorizer
      { denied_actions := [],
        user_control_map := [[("_id", Value.oid 0), ("authorizer", Value.oid 5),
          ("authorizee", Value.oid 6)]],
        nextId := 1 } 0 = [] ∧
    AuthorizingMap.getAuthorizeesByAuthorizer [(5, [6])] 0 =
      Except.error (AuthError.NotFoundError "No authorizees found!") := by
  have h := getters_on_user_without_edges
    { denied_actions := [],
      user_control_map := [[("_id", Value.oid 0), ("authorizer", Value.oid 5),
        ("authorizee", Value.oid 6)]],
      nextId := 1 } [(5, [6])] 0 (by decide) (by decide) ?hm2
  · exact ⟨h.1, h.2.2.1⟩
  case hm2 =>
    intro a um hla
    by_cases ha : a = 5
    · subst ha
      simp [List.lookup] at hla
      subst hla
      decide
    · have hbeq : (a == 5) = false := beq_eq_false_iff_ne.mpr ha
      simp [List.lookup, hbeq] at hla

/-- Helper for the frame property: when every stored denial document carries its action
under `denied_action` (and hence has no `action` field), the lookup that `deny` and
`allow` perform on the filter `{ user, action }` finds nothing. -/
theorem readOne_action_filter_eq_none (s : AuthorizingStore.State) (u : Nat) (a : String)
    (hwf : AuthorizingStore.wfDenied s) :
    readOne s.denied_actions [("user", Value.oid u), ("action", Value.str a)] = none := by
  unfold readOne
  cases hfind : List.find?
      (matchesFilter [("user", Value.oid u), ("action", Value.str a)]) s.denied_actions with
  | none => rfl
  | some d =>
      have hmem := List.mem_of_find?_eq_some hfind
      have hp := List.find?_some hfind
      simp [matchesFilter, hwf d hmem] at hp

/-- The fields of the document `deny` creates. -/
theorem docPair_deny_doc (n u : Nat) (a : String) :
    AuthorizingStore.docPair [("_id", Value.oid n), ("user", Value.oid u),
      ("denied_action", Value.str a)] = (some (Value.oid u), some (Value.str a)) := rfl

/-- Claim C10: `deny(U, A)` and `allow(U, A)` leave the delegation graph unchanged and
leave unchanged (membership-wise) every denial record whose `(user, denied_action)` pair
differs from `(U, A)`, on any well-formed state.  (`deny` either throws before writing or
appends one record carrying the pair `(U, A)`; `allow` on a well-formed state throws
`AlreadyAllowedError` before writing.) -/
theorem deny_allow_frame (s : AuthorizingStore.State) (u : Nat) (a : String) (d : Doc)
    (hwf : AuthorizingStore.wfDenied s)
    (hd : AuthorizingStore.docPair d ≠ (some (Value.oid u), some (Value.str a))) :
    (AuthorizingStore.afterDeny s u a).user_control_map = s.user_control_map ∧
    (AuthorizingStore.afterAllow s u a).user_control_map = s.user_control_map ∧
    (d ∈ (AuthorizingStore.afterDeny s u a).denied_actions ↔ d ∈ s.denied_actions) ∧
    (d ∈ (AuthorizingStore.afterAllow s u a).denied_actions ↔ d ∈ s.denied_actions) := by
  have hro := readOne_action_filter_eq_none s u a hwf
  have hAllow : AuthorizingStore.afterAllow s u a = s := by
    unfold AuthorizingStore.afterAllow AuthorizingStore.allow
    rw [hro]
  have hDeny : AuthorizingStore.afterDeny s u a =
      AuthorizingStore.State.mk
        (s.denied_actions ++ [[("_id", Value.oid s.nextId), ("user", Value.oid u),
          ("denied_action", Value.str a)]])
        s.user_control_map (s.nextId + 1) := by
    unfold AuthorizingStore.afterDeny AuthorizingStore.deny
    rw [hro]
  refine ⟨by rw [hDeny], by rw [hAllow], ?_, by rw [hAllow]⟩
  rw [hDeny]
  simp only [List.mem_append, List.mem_singleton]
  constructor
  · rintro (h | h)
    · exact h
    · exact absurd (h ▸ docPair_deny_doc s.nextId u a) hd
  · exact fun h => Or.inl h

/-- Witness for `deny_allow_frame`: the state holding the single denial `msgDoc` is
well-formed, `msgDoc`'s pair differs from `(0, "Post")`, and `msgDoc` survives a
`deny(0, "Post")`. -/
theorem deny_allow_frame_witness :
    AuthorizingStore.wfDenied sMsg ∧
    AuthorizingStore.docPair msgDoc ≠ (some (Value.oid 0), some (Value.str "Post")) ∧
    (msgDoc ∈ (AuthorizingStore.afterDeny sMsg 0 "Post").denied_actions ↔
      msgDoc ∈ sMsg.denied_actions) ∧
    (msgDoc ∈ (AuthorizingStore.afterAllow sMsg 0 "Post").denied_actions ↔
      msgDoc ∈ sMsg.denied_actions) := by
  have h := deny_allow_frame sMsg 0 "Post" msgDoc (by decide) (by decide)
  exact ⟨by decide, by decide, h.2.2.1, h.2.2.2⟩

end GoldenBook
